import Mathlib

/-!
Verification development for the Parsews-ClearUp cleaner core
(`src/backend/safety_checker.py` and `src/backend/file_scanner.py`).

Shallow embedding conventions:
* Python strings are Lean `String`s; `str.lower()`, `str.startswith`
  and the `in` substring test are modelled on the underlying character
  lists (`strLower`, `strStartsWith`, `strContains`).
* Filesystem interaction (`Path.resolve`, `os.path.exists`, `os.stat`,
  `os.remove`, `os.listdir`) is modelled by explicit inputs: each checked
  path carries the normalized resolved form, the `Path(...).name` and
  `Path(...).suffix` components, an existence flag, a stat-success flag
  and an optional resolution error, exactly the data the Python code
  extracts before its pure logic runs.
* `os.path.normpath` is applied by the code only to values that are
  already in normalized form (the protected-directory literals are
  normpath fixed points and `add_custom_protected_directory` stores the
  normpath of its argument); the embedding therefore takes all stored
  directory strings to be normalized and elides the redundant re-application.
* Python `set`s of strings are modelled as `List String`; only membership
  and first-match iteration matter to the code under study, and the
  declaration order of the literals is used for iteration.
* Timestamps (`time.time()`, `st_mtime`) are exact rationals `Rat`,
  matching Python's true division in the age computation.
-/

namespace ClearUp

/-- Character-list prefix test; models Python `str.startswith`. -/
def listPre : List Char → List Char → Bool
  | [], _ => true
  | _ :: _, [] => false
  | a :: as, b :: bs => a == b && listPre as bs

/-- Character-list substring test; models Python `needle in haystack`.
The empty needle matches everywhere, as in Python. -/
def listHasSub (needle : List Char) : List Char → Bool
  | [] => listPre needle []
  | b :: bs => listPre needle (b :: bs) || listHasSub needle bs

/-- Models Python `s.startswith(pre)`. -/
def strStartsWith (s pre : String) : Bool := listPre pre.data s.data

/-- Models Python `sub in s` (substring containment). -/
def strContains (s sub : String) : Bool := listHasSub sub.data s.data

/-- Models Python `s.lower()` (the strings in this program only need
ASCII case folding, which `Char.toLower` performs). -/
def strLower (s : String) : String := ⟨s.data.map Char.toLower⟩

/-- `SafetyChecker.PROTECTED_DIRECTORIES`, in declaration order. -/
def protectedDirectoriesDefault : List String :=
  ["C:\\Windows",
   "C:\\Windows\\System32",
   "C:\\Windows\\SysWOW64",
   "C:\\Program Files",
   "C:\\Program Files (x86)",
   "C:\\ProgramData",
   "C:\\Users",
   "C:\\$Recycle.Bin",
   "C:\\System Volume Information",
   "C:\\Recovery",
   "C:\\Boot",
   "C:\\PerfLogs"]

/-- `SafetyChecker.PROTECTED_EXTENSIONS`. -/
def protectedExtensionsList : List String :=
  [".exe", ".dll", ".sys", ".drv", ".ocx", ".cpl",
   ".msi", ".msm", ".msp", ".bat", ".cmd", ".ps1",
   ".reg", ".inf", ".cat", ".cer", ".crt", ".key",
   ".pfx", ".p12", ".p7b", ".p7c", ".p7m", ".p7s"]

/-- `SafetyChecker.PROTECTED_FILENAMES`. -/
def protectedFilenamesList : List String :=
  ["boot.ini", "ntldr", "ntdetect.com", "bootmgr",
   "bootmgr.efi", "bcd", "boot.sdi", "winload.exe",
   "winload.efi", "winresume.exe", "winresume.efi"]

/-- The `temp_indicators` list of `SafetyChecker._is_temporary_file`. -/
def tempIndicators : List String :=
  ["\\Temp\\",
   "\\tmp\\",
   "\\AppData\\Local\\Temp\\",
   "\\AppData\\Local\\Microsoft\\Windows\\INetCache\\",
   "\\AppData\\Local\\Microsoft\\Windows\\Temporary Internet Files\\",
   "\\Windows\\Temp\\",
   "\\Windows\\Prefetch\\",
   "\\Windows\\SoftwareDistribution\\Download\\"]

/-- `SafetyChecker._is_temporary_file`: lowercases the path and asks
whether any lowercased indicator occurs in it as a substring. -/
def isTemporaryFile (filePath : String) : Bool :=
  tempIndicators.any fun ind => strContains (strLower filePath) (strLower ind)

/-- The per-instance state of a `SafetyChecker`: its effective
protected-directory collection (`self.PROTECTED_DIRECTORIES` as seen by
`is_safe_to_delete`). -/
structure SafetyChecker where
  protectedDirectories : List String
deriving Repr, DecidableEq

/-- A checker whose protected directories are the default table, as
produced by construction on Windows (normpath leaves each literal
unchanged). -/
def defaultChecker : SafetyChecker := ⟨protectedDirectoriesDefault⟩

/-- The data `is_safe_to_delete` extracts from its `file_path` argument
before any decision: the raw path, `os.path.normpath(str(path.resolve()))`,
`Path(file_path).name`, `Path(file_path).suffix`, whether resolution raised
(`some msg` carries `str(e)`), `path.exists()`, and whether `os.stat`
succeeds when attempted. -/
structure PathInput where
  filePath : String
  normalizedPath : String
  name : String
  suffix : String
  resolveError : Option String
  pathExists : Bool
  statOk : Bool
deriving Repr, DecidableEq

/-- The protected-directory loop of `is_safe_to_delete` (lines 78-83):
returns the first stored directory that is a string prefix of the
normalized path when the temporary-file exception does not apply,
`none` when the loop falls through. -/
def firstProtectedDir (normalizedPath : String) : List String → Option String
  | [] => none
  | d :: rest =>
    if strStartsWith normalizedPath d && !isTemporaryFile normalizedPath then some d
    else firstProtectedDir normalizedPath rest

/-- `SafetyChecker.is_safe_to_delete`, returning the `(is_safe, reason)`
pair. Branch order mirrors the source: resolution failure (the outer
`except`), protected directory with temporary-file waiver, protected
extension with the same waiver, protected filename, and the hidden-name
heuristic which runs only when the path exists and `os.stat` succeeds. -/
def isSafeToDelete (sc : SafetyChecker) (p : PathInput) : Bool × String :=
  match p.resolveError with
  | some msg => (false, "Erro ao verificar segurança: " ++ msg)
  | none =>
    match firstProtectedDir p.normalizedPath sc.protectedDirectories with
    | some d => (false, "Arquivo está em diretório protegido: " ++ d)
    | none =>
      if protectedExtensionsList.contains (strLower p.suffix)
          && !isTemporaryFile p.normalizedPath then
        (false, "Extensão protegida: " ++ p.suffix)
      else if protectedFilenamesList.contains (strLower p.name) then
        (false, "Nome de arquivo protegido: " ++ p.name)
      else if p.pathExists && p.statOk && strStartsWith p.name "." then
        (false, "Arquivo oculto do sistema")
      else
        (true, "Arquivo seguro para deletar")

/-- One entry of `FileScanner.CATEGORIES`: the category name, the
`patterns` (name substrings), `extensions`, `paths` (path substrings) and
the optional `age_days` threshold. -/
structure CategoryRule where
  name : String
  patterns : List String
  extensions : List String
  paths : List String
  ageDays : Option Rat
deriving Repr, DecidableEq

/-- `FileScanner.CATEGORIES` in declaration order (a Python dict preserves
insertion order, which is the iteration order of `_categorize_file`). -/
def CATEGORIES : List CategoryRule :=
  [⟨"cache", ["cache", "Cache", "CACHE"], [".cache", ".tmp"],
    ["AppData\\Local\\Temp", "AppData\\Local\\Microsoft\\Windows\\INetCache"], none⟩,
   ⟨"temporary", ["temp", "Temp", "TEMP", "tmp", "TMP"], [".tmp", ".temp", ".bak", ".old"],
    ["Temp", "tmp", "Windows\\Temp"], none⟩,
   ⟨"logs", ["log", "Log", "LOG"], [".log", ".txt"], ["Logs", "logs"], none⟩,
   ⟨"prefetch", ["Prefetch"], [".pf"], ["Windows\\Prefetch"], none⟩,
   ⟨"recycle_bin", ["$Recycle.Bin"], [], ["$Recycle.Bin"], none⟩,
   ⟨"downloads_old", [], [], ["Downloads"], some 90⟩]

/-- `any(pattern.lower() in file_name for pattern in config["patterns"])`
(the guard `if config["patterns"]` is absorbed: `any` over `[]` is false). -/
def patternHit (r : CategoryRule) (fileName : String) : Bool :=
  r.patterns.any fun pat => strContains fileName (strLower pat)

/-- `any(path.lower() in file_path for path in config["paths"])`. -/
def pathHit (r : CategoryRule) (filePath : String) : Bool :=
  r.paths.any fun pa => strContains filePath (strLower pa)

/-- The age gate of `_categorize_file`: true when the rule has an
`age_days` entry and `(current_time - last_modified) / (24 * 3600)` is
strictly below it, i.e. when the `continue` branch fires. -/
def ageBelow (r : CategoryRule) (currentTime lastModified : Rat) : Bool :=
  match r.ageDays with
  | some a => decide ((currentTime - lastModified) / (24 * 3600) < a)
  | none => false

/-- One iteration of the `_categorize_file` loop body: does rule `r`
return its category for this file? A name-substring hit accepts unless
the age gate fires (in which case `continue` skips the whole rule,
including its extension and path checks); otherwise an extension hit
accepts unconditionally; otherwise a path-substring hit accepts unless
the age gate fires. -/
def ruleOutcome (currentTime : Rat) (fileName fileExt filePath : String)
    (lastModified : Rat) (r : CategoryRule) : Bool :=
  if patternHit r fileName then !ageBelow r currentTime lastModified
  else if r.extensions.contains fileExt then true
  else if pathHit r filePath then !ageBelow r currentTime lastModified
  else false

/-- The `for category, config in self.CATEGORIES.items()` loop of
`_categorize_file`: first accepted rule wins, `None` when the table is
exhausted. -/
def categorizeLoop (currentTime : Rat) (fileName fileExt filePath : String)
    (lastModified : Rat) : List CategoryRule → Option String
  | [] => none
  | r :: rest =>
    if ruleOutcome currentTime fileName fileExt filePath lastModified r then some r.name
    else categorizeLoop currentTime fileName fileExt filePath lastModified rest

/-- `FileScanner._categorize_file(file_name, file_ext, file_path,
last_modified)`. `current_time` is the `time.time()` reading taken at the
top of the function, made an explicit argument here. -/
def categorizeFile (currentTime : Rat) (fileName fileExt filePath : String)
    (lastModified : Rat) : Option String :=
  categorizeLoop currentTime fileName fileExt filePath lastModified CATEGORIES

/-- The `FileInfo` dataclass (the derived `size_mb`/`size_gb` fields of
`__post_init__` are size divided by fixed constants and are omitted). -/
structure FileInfo where
  path : String
  size : Int
  category : String
  lastModified : Rat
  isSafe : Bool
  reason : String
deriving Repr, DecidableEq

/-- The data `_analyze_file` derives from its `file_path` argument:
the inputs handed to the safety checker for this path, the lowercased
`Path(file_path).name` and `Path(file_path).suffix`, the lowercased
`os.path.normpath(file_path)`, and the result of `os.stat`
(`some (st_size, st_mtime)`, or `none` when `os.stat` raises, which the
surrounding `except` turns into a discarded file). -/
structure AnalyzeInput where
  safety : PathInput
  fileName : String
  fileExt : String
  normalizedLower : String
  statResult : Option (Int × Rat)
deriving Repr, DecidableEq

/-- `FileScanner._analyze_file`: safety gate first, then stat, then
classification; a record is built only when all three succeed, always
with `is_safe=True` and `reason=""`. -/
def analyzeFile (sc : SafetyChecker) (currentTime : Rat) (a : AnalyzeInput) :
    Option FileInfo :=
  if (isSafeToDelete sc a.safety).1 = false then none
  else
    match a.statResult with
    | none => none
    | some (sz, mtime) =>
      match categorizeFile currentTime a.fileName a.fileExt a.normalizedLower mtime with
      | some cat => some ⟨a.safety.filePath, sz, cat, mtime, true, ""⟩
      | none => none

/-- One directory entry as `_scan_directory` encounters it.
`file a err`: `os.path.isfile` is true; `err` models a
`PermissionError`/`OSError` raised while handling the entry (caught by
the per-entry `except`, entry skipped). `raising`: an entry whose
`isfile`/`isdir` test itself raises. `dir hp pr lo es`: a subdirectory,
where `hp` says the safety checker rejects it with a directory-protection
reason (the prune test of line 126), `pr` is `exists and isdir`, `lo` is
false when `os.listdir` raises `PermissionError`, and `es` are its
entries in listing order. -/
inductive FsEntry where
  | file (a : AnalyzeInput) (accessError : Bool)
  | raising
  | dir (hardProtected present listingOk : Bool) (entries : List FsEntry)

/-- The entry loop of `_scan_directory` (lines 143-159) plus the body of
the recursive call for subdirectory entries: errored entries contribute
nothing and traversal continues with the rest; a file entry contributes
its `_analyze_file` record, if any; a subdirectory entry is entered at
`depth + 1` after the depth, protection, existence and listing checks,
each failure skipping only that subtree. The result is the sequence of
records appended to `self.scanned_files`, in traversal order. -/
def scanEntries (sc : SafetyChecker) (currentTime : Rat) (maxDepth : Nat) :
    Nat → List FsEntry → List FileInfo
  | _, [] => []
  | depth, .file a err :: rest =>
    (if err then [] else (analyzeFile sc currentTime a).toList)
      ++ scanEntries sc currentTime maxDepth depth rest
  | depth, .raising :: rest => scanEntries sc currentTime maxDepth depth rest
  | depth, .dir hp pr lo es :: rest =>
    (if maxDepth ≤ depth + 1 then []
     else if hp then []
     else if !pr then []
     else if !lo then []
     else scanEntries sc currentTime maxDepth (depth + 1) es)
      ++ scanEntries sc currentTime maxDepth depth rest

/-- `FileScanner._scan_directory` applied to one root at a given depth. -/
def scanDir (sc : SafetyChecker) (currentTime : Rat) (maxDepth depth : Nat) :
    FsEntry → List FileInfo
  | .file _ _ => []
  | .raising => []
  | .dir hp pr lo es =>
    if maxDepth ≤ depth then []
    else if hp then []
    else if !pr then []
    else if !lo then []
    else scanEntries sc currentTime maxDepth depth es

/-- One path of a `delete_files` request: the deletion loop re-runs the
safety checker on the path's current data and consults `os.path.exists`
(the same filesystem snapshot as `PathInput.pathExists`); `removeOk`
models whether `os.remove` succeeds (`false` = it raises, which the
`except` turns into a `False` outcome). -/
def deleteOne (sc : SafetyChecker) (p : PathInput) (removeOk : Bool) : Bool :=
  if (isSafeToDelete sc p).1 = false then false
  else if p.pathExists then removeOk
  else false

/-- `FileScanner.delete_files`: one outcome per requested path, keyed by
the raw path string, in request order. -/
def deleteFiles (sc : SafetyChecker) (reqs : List (PathInput × Bool)) :
    List (String × Bool) :=
  reqs.map fun q => (q.1.filePath, deleteOne sc q.1 q.2)

/-- The removal attempts `delete_files` actually makes: `os.remove` is
reached exactly for the requested paths that pass the safety re-check and
currently exist. -/
def attemptedRemovals (sc : SafetyChecker) (reqs : List (PathInput × Bool)) :
    List (PathInput × Bool) :=
  reqs.filter fun q => (isSafeToDelete sc q.1).1 && q.1.pathExists

/-- The class-level attribute `SafetyChecker.PROTECTED_DIRECTORIES`,
shared by every instance that has not shadowed it. -/
structure ClassState where
  classDirs : List String
deriving Repr, DecidableEq

/-- The class state at process start: the literal table. -/
def defaultClassState : ClassState := ⟨protectedDirectoriesDefault⟩

/-- One `SafetyChecker` instance's own attribute dictionary:
`some l` when `_normalize_protected_paths` assigned an instance-level
`PROTECTED_DIRECTORIES`, `none` when the lookup still reaches the class
attribute. -/
structure CheckerInstance where
  instanceDirs : Option (List String)
deriving Repr, DecidableEq

/-- `SafetyChecker.__init__` / `_normalize_protected_paths`: on Windows
the method builds a fresh normalized set and assigns it to the instance
(shadowing the class attribute; normpath leaves the stored literals
unchanged); on any other platform it returns early, so the instance keeps
reading the shared class attribute. -/
def initChecker (isWindows : Bool) (g : ClassState) : CheckerInstance :=
  if isWindows then ⟨some g.classDirs⟩ else ⟨none⟩

/-- Python attribute lookup for `self.PROTECTED_DIRECTORIES`. -/
def effectiveDirs (g : ClassState) (i : CheckerInstance) : List String :=
  match i.instanceDirs with
  | some l => l
  | none => g.classDirs

/-- The checker an instance behaves as, given the current class state. -/
def checkerOf (g : ClassState) (i : CheckerInstance) : SafetyChecker :=
  ⟨effectiveDirs g i⟩

/-- `SafetyChecker.add_custom_protected_directory`:
`self.PROTECTED_DIRECTORIES.add(os.path.normpath(directory))` mutates
whichever set the attribute lookup reaches — the instance's own set when
one exists, otherwise the shared class-level set. Set insertion is
modelled as list append (only membership is consulted). -/
def addCustomProtectedDirectory (g : ClassState) (i : CheckerInstance)
    (dir : String) : ClassState × CheckerInstance :=
  match i.instanceDirs with
  | some l => (g, ⟨some (l ++ [dir])⟩)
  | none => (⟨g.classDirs ++ [dir]⟩, i)

/-- An entry on which the traversal hits an OS-level error: a file whose
per-entry handling raises, an entry whose `isfile`/`isdir` test raises,
or a subdirectory whose `os.listdir` raises `PermissionError`. -/
def badEntry (b : FsEntry) : Prop :=
  (∃ a, b = FsEntry.file a true) ∨ b = FsEntry.raising ∨
    ∃ hp pr es', b = FsEntry.dir hp pr false es'

/-- A document below `C:\Users`, outside every temporary location. -/
def usersDocInput : PathInput :=
  ⟨"C:\\Users\\bob\\doc.txt", "C:\\Users\\bob\\doc.txt", "doc.txt", ".txt", none, true, true⟩

/-- An existing junk file outside every protected resource. -/
def junkOldInput : PathInput :=
  ⟨"C:\\Junk\\old.log", "C:\\Junk\\old.log", "old.log", ".log", none, true, true⟩

/-- A junk path that no longer exists on disk. -/
def junkGoneInput : PathInput :=
  ⟨"C:\\Junk\\gone.log", "C:\\Junk\\gone.log", "gone.log", ".log", none, false, true⟩

/-- A dot-named path that does not exist on disk (`Path('.hidden').suffix`
is empty for a dotfile). -/
def hiddenMissingInput : PathInput :=
  ⟨"C:\\Data\\.hidden", "C:\\Data\\.hidden", ".hidden", "", none, false, true⟩

/-- The same dot-named path when it exists and `os.stat` succeeds. -/
def hiddenExistingInput : PathInput :=
  ⟨"C:\\Data\\.hidden", "C:\\Data\\.hidden", ".hidden", "", none, true, true⟩

/-- A file under a custom directory `D:\Private`. -/
def privateFileInput : PathInput :=
  ⟨"D:\\Private\\x.dat", "D:\\Private\\x.dat", "x.dat", ".dat", none, true, true⟩

/-- A sibling of `C:\Users` whose name merely extends it; it does not lie
under any protected directory. -/
def usersBackupInput : PathInput :=
  ⟨"C:\\UsersBackup\\file.dat", "C:\\UsersBackup\\file.dat", "file.dat", ".dat", none, true, true⟩

/-- Analyze-time data for the junk log file. -/
def junkOldAnalyze : AnalyzeInput :=
  ⟨junkOldInput, "old.log", ".log", "c:\\junk\\old.log", some (2048, 0)⟩

/-- Analyze-time data for a file the safety gate rejects. -/
def unsafeAnalyze : AnalyzeInput :=
  ⟨usersDocInput, "doc.txt", ".txt", "c:\\users\\bob\\doc.txt", some (1, 0)⟩

/-- The record the scanner builds for `junkOldAnalyze`. -/
def fiJunk : FileInfo := ⟨"C:\\Junk\\old.log", 2048, "logs", 0, true, ""⟩

/-- A synthetic rule exercising every matching channel of the classifier:
name substring, extension, path substring and a 90-day age threshold. -/
def demoAgeRule : CategoryRule := ⟨"demo", ["tmp"], [".bak"], ["Downloads"], some 90⟩

/-- A successful hit of the protected-directory loop names a stored
directory that is a string prefix of the normalized path. -/
theorem firstProtectedDir_some {np d' : String} :
    ∀ {dirs : List String}, firstProtectedDir np dirs = some d' →
      d' ∈ dirs ∧ strStartsWith np d' = true ∧ isTemporaryFile np = false := by
  intro dirs
  induction dirs with
  | nil => intro h; simp [firstProtectedDir] at h
  | cons d rest ih =>
    intro h
    rw [firstProtectedDir] at h
    split at h
    · next hc =>
      rw [Bool.and_eq_true, Bool.not_eq_true'] at hc
      injection h with hdd
      subst hdd
      exact ⟨List.mem_cons_self _ _, hc.1, hc.2⟩
    · obtain ⟨hm, hs, ht⟩ := ih h
      exact ⟨List.mem_cons_of_mem d hm, hs, ht⟩

/-- When some stored directory is a string prefix of the normalized path
and the temporary-file waiver does not apply, the loop hits. -/
theorem firstProtectedDir_isSome {np d : String} {dirs : List String}
    (hd : d ∈ dirs) (hpre : strStartsWith np d = true)
    (htemp : isTemporaryFile np = false) :
    ∃ d', firstProtectedDir np dirs = some d' := by
  induction dirs with
  | nil => cases hd
  | cons x rest ih =>
    by_cases hc : strStartsWith np x && !isTemporaryFile np
    · exact ⟨x, by simp [firstProtectedDir, hc]⟩
    · have hx : firstProtectedDir np (x :: rest) = firstProtectedDir np rest := by
        simp [firstProtectedDir, hc]
      rcases List.mem_cons.mp hd with rfl | hmem
      · exact absurd (by simp [hpre, htemp]) hc
      · obtain ⟨d', hd'⟩ := ih hmem
        exact ⟨d', hx ▸ hd'⟩

/-- The temporary-file waiver disables the whole protected-directory
loop: no stored directory can hit. -/
theorem firstProtectedDir_of_temp {np : String} (htemp : isTemporaryFile np = true) :
    ∀ dirs : List String, firstProtectedDir np dirs = none := by
  intro dirs
  induction dirs with
  | nil => rfl
  | cons d rest ih => simp [firstProtectedDir, htemp, ih]

/-- The classifier loop is first-match search over the rule table. -/
theorem categorizeLoop_eq_find (ct lm : Rat) (n e pa : String) :
    ∀ rules : List CategoryRule,
      categorizeLoop ct n e pa lm rules
        = (rules.find? (ruleOutcome ct n e pa lm)).map CategoryRule.name := by
  intro rules
  induction rules with
  | nil => rfl
  | cons r rest ih =>
    by_cases hr : ruleOutcome ct n e pa lm r
    · simp [categorizeLoop, hr, List.find?]
    · simp only [categorizeLoop, hr, Bool.false_eq_true, if_neg, not_false_iff, ih]
      simp [List.find?, hr]

/-- A rule with no age threshold decides independently of the clock. -/
theorem ruleOutcome_clock_free {r : CategoryRule} (h : r.ageDays = none)
    (ct ct' lm lm' : Rat) (n e pa : String) :
    ruleOutcome ct n e pa lm r = ruleOutcome ct' n e pa lm' r := by
  simp [ruleOutcome, ageBelow, h]

/-- Every field of a record built by `_analyze_file`, from the equation
`analyzeFile = some fi`. -/
theorem analyzeFile_some_props {sc : SafetyChecker} {ct : Rat} {a : AnalyzeInput}
    {fi : FileInfo} (h : analyzeFile sc ct a = some fi) :
    fi.isSafe = true ∧ fi.reason = "" ∧ fi.path = a.safety.filePath ∧
    (isSafeToDelete sc a.safety).1 = true ∧
    ∃ sz mt, a.statResult = some (sz, mt) ∧ fi.size = sz ∧ fi.lastModified = mt ∧
      categorizeFile ct a.fileName a.fileExt a.normalizedLower mt = some fi.category := by
  unfold analyzeFile at h
  by_cases hs : (isSafeToDelete sc a.safety).1 = false
  · simp [hs] at h
  · rcases hst : a.statResult with _ | ⟨sz, mt⟩
    · simp [hs, hst] at h
    · rcases hcat : categorizeFile ct a.fileName a.fileExt a.normalizedLower mt with _ | cat
      · simp [hs, hst, hcat] at h
      · simp only [hs, hst, hcat, if_neg, not_false_iff] at h
        cases h
        refine ⟨rfl, rfl, rfl, ?_, sz, mt, rfl, rfl, rfl, hcat⟩
        exact Bool.eq_true_of_not_eq_false hs

/-- Every record in the traversal output comes from a successful
`_analyze_file` call on some entry. -/
theorem mem_scanEntries {sc : SafetyChecker} {ct : Rat} {maxD : Nat}
    (depth : Nat) (es : List FsEntry) :
    ∀ fi : FileInfo, fi ∈ scanEntries sc ct maxD depth es →
      ∃ a, analyzeFile sc ct a = some fi := by
  induction depth, es using scanEntries.induct sc ct maxD with
  | case1 depth => intro fi h; simp [scanEntries] at h
  | case2 depth a err rest ih =>
    intro fi h
    simp only [scanEntries] at h
    rcases List.mem_append.mp h with h1 | h2
    · by_cases he : err
      · simp [he] at h1
      · simp only [he, Bool.false_eq_true, if_neg, not_false_iff] at h1
        exact ⟨a, by simpa using Option.mem_toList.mp h1⟩
    · exact ih fi h2
  | case3 depth rest ih =>
    intro fi h
    simp only [scanEntries] at h
    exact ih fi h
  | case4 depth hp pr lo es' rest ih1 ih2 =>
    intro fi h
    simp only [scanEntries] at h
    rcases List.mem_append.mp h with h1 | h2
    · split at h1
      · simp at h1
      · split at h1
        · simp at h1
        · split at h1
          · simp at h1
          · split at h1
            · simp at h1
            · exact ih1 fi h1
    · exact ih2 fi h2

/-- Traversal output distributes over the entry list. -/
theorem scanEntries_append (sc : SafetyChecker) (ct : Rat) (maxD depth : Nat) :
    ∀ l1 l2 : List FsEntry,
      scanEntries sc ct maxD depth (l1 ++ l2)
        = scanEntries sc ct maxD depth l1 ++ scanEntries sc ct maxD depth l2 := by
  intro l1 l2
  induction l1 with
  | nil => simp [scanEntries]
  | cons x rest ih => cases x <;> simp [scanEntries, ih]

/-- Claim C1: a path under a stored protected-directory prefix is judged
unsafe with a directory-protection reason, unless the normalized path
contains a temporary-location exception substring, in which case the
directory protection is waived for this check (the verdict is exactly the
one a checker with no protected directories would give, so the later
checks still apply). -/
theorem c1_protected_directory_blocks (sc : SafetyChecker) (p : PathInput) (d : String)
    (hres : p.resolveError = none) (hd : d ∈ sc.protectedDirectories)
    (hpre : strStartsWith p.normalizedPath d = true) :
    (isTemporaryFile p.normalizedPath = false →
      (isSafeToDelete sc p).1 = false ∧
      ∃ d', d' ∈ sc.protectedDirectories ∧ strStartsWith p.normalizedPath d' = true ∧
        (isSafeToDelete sc p).2 = "Arquivo está em diretório protegido: " ++ d') ∧
    (isTemporaryFile p.normalizedPath = true →
      isSafeToDelete sc p = isSafeToDelete ⟨[]⟩ p) := by
  constructor
  · intro htemp
    obtain ⟨d', hsome⟩ := firstProtectedDir_isSome hd hpre htemp
    obtain ⟨hmem, hs, -⟩ := firstProtectedDir_some hsome
    exact ⟨by simp [isSafeToDelete, hres, hsome],
      d', hmem, hs, by simp [isSafeToDelete, hres, hsome]⟩
  · intro htemp
    simp [isSafeToDelete, hres, firstProtectedDir_of_temp htemp]

/-- Witness for C1 at `C:\Users\bob\doc.txt` under the default table. -/
theorem c1_witness :
    "C:\\Users" ∈ defaultChecker.protectedDirectories ∧
    strStartsWith usersDocInput.normalizedPath "C:\\Users" = true ∧
    isTemporaryFile usersDocInput.normalizedPath = false ∧
    (isSafeToDelete defaultChecker usersDocInput).1 = false := by
  refine ⟨by decide, by decide, by decide, ?_⟩
  exact ((c1_protected_directory_blocks defaultChecker usersDocInput "C:\\Users"
    rfl (by decide) (by decide)).1 (by decide)).1

/-- Claim C2 counterexample: on a platform where construction skips
normalization (the non-Windows early return), the instance has no own
copy and `add_custom_protected_directory` mutates the shared class-level
set, so a second instance that judged `D:\Private\x.dat` safe before the
call judges it unsafe afterwards. -/
theorem c2_counterexample :
    (isSafeToDelete
        (checkerOf defaultClassState (initChecker false defaultClassState))
        privateFileInput).1 = true ∧
    (isSafeToDelete
        (checkerOf
          (addCustomProtectedDirectory defaultClassState
            (initChecker false defaultClassState) "D:\\Private").1
          (initChecker false defaultClassState))
        privateFileInput).1 = false := by decide

/-- Claim C2 amended: when the calling instance owns an instance-level
copy of the table (the Windows construction path), the call appends to
that copy only: the class state is unchanged, every other instance sees
exactly the directories it saw before, and the calling instance now
judges paths under the new directory unsafe (outside temporary
locations). On the non-Windows construction path the call instead
mutates the shared class-level set. -/
theorem c2_amended_instance_isolation (g : ClassState) (i j : CheckerInstance)
    (l : List String) (d : String) (p : PathInput)
    (hi : i.instanceDirs = some l) (hres : p.resolveError = none)
    (hpre : strStartsWith p.normalizedPath d = true)
    (htemp : isTemporaryFile p.normalizedPath = false) :
    (addCustomProtectedDirectory g i d).1 = g ∧
    (addCustomProtectedDirectory g i d).2.instanceDirs = some (l ++ [d]) ∧
    effectiveDirs (addCustomProtectedDirectory g i d).1 j = effectiveDirs g j ∧
    (isSafeToDelete
        (checkerOf (addCustomProtectedDirectory g i d).1
          (addCustomProtectedDirectory g i d).2) p).1 = false := by
  have hadd : addCustomProtectedDirectory g i d = (g, ⟨some (l ++ [d])⟩) := by
    simp [addCustomProtectedDirectory, hi]
  rw [hadd]
  refine ⟨rfl, rfl, rfl, ?_⟩
  have hd : d ∈ l ++ [d] := List.mem_append.mpr (Or.inr (List.mem_singleton.mpr rfl))
  obtain ⟨d', hsome⟩ := firstProtectedDir_isSome hd hpre htemp
  simp [checkerOf, effectiveDirs, isSafeToDelete, hres, hsome]

/-- Witness for the amended C2 on a Windows-constructed instance adding
`D:\Private`, observed by a class-attribute instance. -/
theorem c2_witness :
    (addCustomProtectedDirectory defaultClassState
        ⟨some protectedDirectoriesDefault⟩ "D:\\Private").1 = defaultClassState ∧
    (addCustomProtectedDirectory defaultClassState
        ⟨some protectedDirectoriesDefault⟩ "D:\\Private").2.instanceDirs
      = some (protectedDirectoriesDefault ++ ["D:\\Private"]) ∧
    effectiveDirs
        (addCustomProtectedDirectory defaultClassState
          ⟨some protectedDirectoriesDefault⟩ "D:\\Private").1 ⟨none⟩
      = effectiveDirs defaultClassState ⟨none⟩ ∧
    (isSafeToDelete
        (checkerOf
          (addCustomProtectedDirectory defaultClassState
            ⟨some protectedDirectoriesDefault⟩ "D:\\Private").1
          (addCustomProtectedDirectory defaultClassState
            ⟨some protectedDirectoriesDefault⟩ "D:\\Private").2)
        privateFileInput).1 = false :=
  c2_amended_instance_isolation defaultClassState ⟨some protectedDirectoriesDefault⟩
    ⟨none⟩ protectedDirectoriesDefault "D:\\Private" privateFileInput
    rfl rfl (by decide) (by decide)

/-- Claim C7 counterexample: `C:\Data\.hidden` has the hidden-file
marker, is rejected by no earlier step, does not exist on disk — and
`is_safe_to_delete` returns safe, because the hidden-name check is
guarded by `path.exists()`. -/
theorem c7_counterexample :
    strStartsWith hiddenMissingInput.name "." = true ∧
    hiddenMissingInput.pathExists = false ∧
    firstProtectedDir hiddenMissingInput.normalizedPath
      defaultChecker.protectedDirectories = none ∧
    protectedExtensionsList.contains (strLower hiddenMissingInput.suffix) = false ∧
    protectedFilenamesList.contains (strLower hiddenMissingInput.name) = false ∧
    (isSafeToDelete defaultChecker hiddenMissingInput).1 = true := by decide

/-- Claim C7 amended: a path whose filename begins with the hidden-file
marker and which is not rejected by an earlier step is judged unsafe with
the hidden-file reason, provided the path currently exists and `os.stat`
succeeds; for a nonexistent path (or a failing stat) the hidden-file
check is skipped and the path is judged safe. -/
theorem c7_amended_hidden_requires_existence (sc : SafetyChecker) (p : PathInput)
    (hres : p.resolveError = none)
    (h1 : firstProtectedDir p.normalizedPath sc.protectedDirectories = none)
    (h2 : (protectedExtensionsList.contains (strLower p.suffix)
            && !isTemporaryFile p.normalizedPath) = false)
    (h3 : protectedFilenamesList.contains (strLower p.name) = false)
    (hex : p.pathExists = true) (hst : p.statOk = true)
    (hh : strStartsWith p.name "." = true) :
    isSafeToDelete sc p = (false, "Arquivo oculto do sistema") := by
  simp at h2 h3
  simp [isSafeToDelete, hres, h1, h2, h3, hex, hst, hh]
  intro hin htemp
  rw [h2 hin] at htemp
  exact absurd htemp (by decide)

/-- Witness for the amended C7: the same dotfile, existing on disk. -/
theorem c7_witness :
    isSafeToDelete defaultChecker hiddenExistingInput
      = (false, "Arquivo oculto do sistema") :=
  c7_amended_hidden_requires_existence defaultChecker hiddenExistingInput
    rfl (by decide) (by decide) (by decide) rfl rfl (by decide)

/-- Claim C10: directory protection is a raw string-prefix comparison
with no separator-boundary requirement: `C:\UsersBackup\file.dat` lies
under no protected directory (it equals none of them and extends none of
them across a separator), yet it is judged unsafe with the `C:\Users`
directory-protection reason. -/
theorem c10_raw_prefix_comparison :
    (protectedDirectoriesDefault.all fun d =>
        !(strStartsWith usersBackupInput.normalizedPath (d ++ "\\"))
          && !(usersBackupInput.normalizedPath == d)) = true ∧
    isSafeToDelete defaultChecker usersBackupInput
      = (false, "Arquivo está em diretório protegido: C:\\Users") := by decide

/-- Claim C3: every record in a scan's result list comes from a
successful `_analyze_file` call: at analysis time the safety gate passed,
stat succeeded, the classifier assigned the category (the first matching
rule in declared order), and the record carries `is_safe=True` and
`reason=""`; conversely no record is produced for a file judged unsafe,
for a file whose stat fails, or for a file no rule categorizes. -/
theorem c3_record_invariant (sc : SafetyChecker) (ct : Rat) (maxD depth : Nat)
    (es : List FsEntry) (fi : FileInfo) (b : AnalyzeInput)
    (hmem : fi ∈ scanEntries sc ct maxD depth es) :
    (fi.isSafe = true ∧ fi.reason = "" ∧
      ∃ a, analyzeFile sc ct a = some fi ∧ fi.path = a.safety.filePath ∧
        (isSafeToDelete sc a.safety).1 = true ∧
        ∃ sz mt, a.statResult = some (sz, mt) ∧ fi.size = sz ∧ fi.lastModified = mt ∧
          categorizeFile ct a.fileName a.fileExt a.normalizedLower mt = some fi.category ∧
          (CATEGORIES.find? (ruleOutcome ct a.fileName a.fileExt a.normalizedLower mt)).map
            CategoryRule.name = some fi.category) ∧
    ((isSafeToDelete sc b.safety).1 = false → analyzeFile sc ct b = none) ∧
    (b.statResult = none → analyzeFile sc ct b = none) ∧
    (∀ sz mt, b.statResult = some (sz, mt) →
      categorizeFile ct b.fileName b.fileExt b.normalizedLower mt = none →
      analyzeFile sc ct b = none) := by
  obtain ⟨a, ha⟩ := mem_scanEntries depth es fi hmem
  obtain ⟨hsafe, hreason, hpath, hgate, sz, mt, hstat, hsz, hmt, hcat⟩ :=
    analyzeFile_some_props ha
  refine ⟨⟨hsafe, hreason, a, ha, hpath, hgate, sz, mt, hstat, hsz, hmt, hcat, ?_⟩,
    ?_, ?_, ?_⟩
  · rw [← categorizeLoop_eq_find]
    exact hcat
  · intro hb
    simp [analyzeFile, hb]
  · intro hb
    by_cases hg : (isSafeToDelete sc b.safety).1 = false
    · simp [analyzeFile, hg]
    · simp [analyzeFile, hg, hb]
  · intro sz' mt' hb hcat'
    by_cases hg : (isSafeToDelete sc b.safety).1 = false
    · simp [analyzeFile, hg]
    · simp [analyzeFile, hg, hb, hcat']

/-- Witness for C3: a one-file scan producing the junk-log record, and an
unsafe file producing no record. -/
theorem c3_witness :
    fiJunk.isSafe = true ∧ fiJunk.reason = "" ∧
    analyzeFile defaultChecker 0 unsafeAnalyze = none := by
  have hgate : (isSafeToDelete defaultChecker junkOldInput).1 = true := by decide
  have hcat : categorizeFile 0 "old.log" ".log" "c:\\junk\\old.log" 0 = some "logs" := by
    simp only [categorizeFile, categorizeLoop, CATEGORIES, ruleOutcome, patternHit, pathHit,
      ageBelow, strContains, strLower]
    norm_num
    decide
  have hana : analyzeFile defaultChecker 0 junkOldAnalyze = some fiJunk := by
    simp [analyzeFile, junkOldAnalyze, hgate, hcat, fiJunk]
    rfl
  have hmem : fiJunk ∈ scanEntries defaultChecker 0 10 0 [FsEntry.file junkOldAnalyze false] := by
    simp [scanEntries, hana]
  obtain ⟨⟨h1, h2, -⟩, hneg, -, -⟩ :=
    c3_record_invariant defaultChecker 0 10 0 _ fiJunk unsafeAnalyze hmem
  exact ⟨h1, h2, hneg (by decide)⟩

/-- Claim C4: an extension hit (reached when no name-substring of the
rule matches) accepts unconditionally, for every clock reading and
modification time, even when the rule defines an age threshold; a
name-substring or path-substring hit whose age falls below the rule's
threshold makes the loop skip that rule and continue with the rest of
the table. -/
theorem c4_extension_ignores_age (r : CategoryRule) (rest : List CategoryRule)
    (ct lm : Rat) (n e pa : String) :
    (patternHit r n = false → r.extensions.contains e = true →
      ∀ ct' lm' : Rat, ruleOutcome ct' n e pa lm' r = true) ∧
    (patternHit r n = true → ageBelow r ct lm = true →
      categorizeLoop ct n e pa lm (r :: rest) = categorizeLoop ct n e pa lm rest) ∧
    (patternHit r n = false → r.extensions.contains e = false → pathHit r pa = true →
      ageBelow r ct lm = true →
      categorizeLoop ct n e pa lm (r :: rest) = categorizeLoop ct n e pa lm rest) := by
  refine ⟨?_, ?_, ?_⟩
  · intro h1 h2 ct' lm'
    simp at h2
    simp [ruleOutcome, h1, h2]
  · intro h1 h2
    simp [categorizeLoop, ruleOutcome, h1, h2]
  · intro h1 h2 h3 h4
    simp at h2
    simp [categorizeLoop, ruleOutcome, h1, h2, h3, h4]

/-- Witness for C4 on the synthetic rule: an `.bak` extension hit accepts
at age zero despite the 90-day threshold; a `tmp` name hit and a
`Downloads` path hit at age zero skip the rule. -/
theorem c4_witness :
    ruleOutcome 0 "a.bak" ".bak" "c:\\x" 0 demoAgeRule = true ∧
    categorizeLoop 0 "tmpfile" ".dat" "c:\\x" 0 [demoAgeRule]
      = categorizeLoop 0 "tmpfile" ".dat" "c:\\x" 0 [] ∧
    categorizeLoop 0 "a.dat" ".dat" "c:\\downloads\\a.dat" 0 [demoAgeRule]
      = categorizeLoop 0 "a.dat" ".dat" "c:\\downloads\\a.dat" 0 [] := by
  have hage : ageBelow demoAgeRule 0 0 = true := by
    simp [ageBelow, demoAgeRule]
  refine ⟨(c4_extension_ignores_age demoAgeRule [] 0 0 "a.bak" ".bak" "c:\\x").1
      (by decide) (by decide) 0 0,
    (c4_extension_ignores_age demoAgeRule [] 0 0 "tmpfile" ".dat" "c:\\x").2.1
      (by decide) hage,
    (c4_extension_ignores_age demoAgeRule [] 0 0 "a.dat" ".dat"
      "c:\\downloads\\a.dat").2.2 (by decide) (by decide) (by decide) hage⟩

/-- Claim C5: the classifier returns the name of the first rule in the
declared table order that matches under the name/extension/path and
age-gate discipline, and returns none exactly when no rule matches. -/
theorem c5_first_match_wins (ct lm : Rat) (n e pa : String) :
    categorizeFile ct n e pa lm
        = (CATEGORIES.find? (ruleOutcome ct n e pa lm)).map CategoryRule.name ∧
    (categorizeFile ct n e pa lm = none ↔
      ∀ r ∈ CATEGORIES, ruleOutcome ct n e pa lm r = false) := by
  have h := categorizeLoop_eq_find ct lm n e pa CATEGORIES
  refine ⟨h, ?_⟩
  unfold categorizeFile
  rw [h]
  simp [List.find?_eq_none]

/-- Claim C6: `delete_files` returns one outcome per requested path (it
is a total function — every exception is converted to a `False` entry):
an unsafe path maps to false with no removal attempted, a nonexistent
path maps to false, and otherwise the outcome is exactly the success of
the removal; concretely, a request of one existing unprotected file and
one nonexistent file maps the first to true and the second to false. -/
theorem c6_delete_outcomes (sc : SafetyChecker) (reqs : List (PathInput × Bool))
    (p : PathInput) (rok : Bool) :
    ((deleteFiles sc reqs).map Prod.fst = reqs.map fun q => q.1.filePath) ∧
    ((isSafeToDelete sc p).1 = false →
      deleteOne sc p rok = false ∧ (p, rok) ∉ attemptedRemovals sc reqs) ∧
    (p.pathExists = false → deleteOne sc p rok = false) ∧
    ((isSafeToDelete sc p).1 = true → p.pathExists = true →
      deleteOne sc p rok = rok) ∧
    deleteFiles defaultChecker [(junkOldInput, true), (junkGoneInput, true)]
      = [("C:\\Junk\\old.log", true), ("C:\\Junk\\gone.log", false)] := by
  refine ⟨?_, ?_, ?_, ?_, ?_⟩
  · simp [deleteFiles]
  · intro h
    refine ⟨by simp [deleteOne, h], ?_⟩
    intro hmem
    have hpred := (List.mem_filter.mp hmem).2
    simp [h] at hpred
  · intro h
    unfold deleteOne
    split
    · rfl
    · simp [h]
  · intro h1 h2
    simp [deleteOne, h1, h2]
  · decide

/-- Witness for C6: the unsafe, nonexistent and successful cases at
concrete paths. -/
theorem c6_witness :
    deleteOne defaultChecker usersDocInput true = false ∧
    deleteOne defaultChecker junkGoneInput true = false ∧
    deleteOne defaultChecker junkOldInput true = true :=
  ⟨((c6_delete_outcomes defaultChecker [] usersDocInput true).2.1 (by decide)).1,
   (c6_delete_outcomes defaultChecker [] junkGoneInput true).2.2.1 (by decide),
   (c6_delete_outcomes defaultChecker [] junkOldInput true).2.2.2.1
     (by decide) (by decide)⟩

/-- Claim C8 counterexample: `_categorize_file` reads the clock
(`time.time()`), so it is not a function of only its four declared
inputs: the same (name, extension, path, last-modified) quadruple yields
none at one clock reading and `downloads_old` at another. -/
theorem c8_counterexample :
    categorizeFile 0 "x.dat" ".dat" "c:\\users\\me\\downloads\\x.dat" 0 = none ∧
    categorizeFile (100 * 86400) "x.dat" ".dat" "c:\\users\\me\\downloads\\x.dat" 0
      = some "downloads_old" ∧
    categorizeFile 0 "x.dat" ".dat" "c:\\users\\me\\downloads\\x.dat" 0
      ≠ categorizeFile (100 * 86400) "x.dat" ".dat" "c:\\users\\me\\downloads\\x.dat" 0 := by
  have h1 : categorizeFile 0 "x.dat" ".dat" "c:\\users\\me\\downloads\\x.dat" 0 = none := by
    simp only [categorizeFile, categorizeLoop, CATEGORIES, ruleOutcome, patternHit, pathHit,
      ageBelow, strContains, strLower]
    norm_num
    decide
  have h2 : categorizeFile (100 * 86400) "x.dat" ".dat" "c:\\users\\me\\downloads\\x.dat" 0
      = some "downloads_old" := by
    simp only [categorizeFile, categorizeLoop, CATEGORIES, ruleOutcome, patternHit, pathHit,
      ageBelow, strContains, strLower]
    norm_num
    decide
  refine ⟨h1, h2, ?_⟩
  rw [h1, h2]
  simp

/-- Claim C8 amended: the classifier is a deterministic function of its
four declared inputs plus the clock reading taken at entry; the clock
enters only through age thresholds, so over any rule table whose rules
all omit `age_days` the result is clock-independent. -/
theorem c8_amended_clock_free_tables (rules : List CategoryRule)
    (h : ∀ r ∈ rules, r.ageDays = none) (ct ct' lm : Rat) (n e pa : String) :
    categorizeLoop ct n e pa lm rules = categorizeLoop ct' n e pa lm rules := by
  induction rules with
  | nil => rfl
  | cons r rest ih =>
    have hr : r.ageDays = none := h r (List.mem_cons_self _ _)
    have hrest : ∀ r' ∈ rest, r'.ageDays = none :=
      fun r' hr' => h r' (List.mem_cons_of_mem _ hr')
    simp only [categorizeLoop, ruleOutcome_clock_free hr ct ct' lm lm n e pa, ih hrest]

/-- Witness for the amended C8: the five threshold-free rules of the
shipped table classify identically at clock readings 0 and 10⁹. -/
theorem c8_witness :
    categorizeLoop 0 "x.dat" ".dat" "c:\\junk\\x.dat" 0 (CATEGORIES.take 5)
      = categorizeLoop 1000000000 "x.dat" ".dat" "c:\\junk\\x.dat" 0 (CATEGORIES.take 5) :=
  c8_amended_clock_free_tables (CATEGORIES.take 5) (by decide) 0 1000000000 0
    "x.dat" ".dat" "c:\\junk\\x.dat"

/-- Claim C9: an OS-level error on a single directory entry, or a
permission error while listing one subdirectory, removes only that
entry's (or subtree's) contribution: the traversal output equals the
output for the same listing without the failing entry, so siblings before
and after it are still visited and reported (and the traversal is a total
function — no exception propagates). -/
theorem c9_error_isolation (sc : SafetyChecker) (ct : Rat) (maxD depth : Nat)
    (es1 es2 : List FsEntry) (bad : FsEntry) (hbad : badEntry bad) :
    scanEntries sc ct maxD depth (es1 ++ bad :: es2)
      = scanEntries sc ct maxD depth es1 ++ scanEntries sc ct maxD depth es2 := by
  have hz : scanEntries sc ct maxD depth [bad] = [] := by
    rcases hbad with ⟨a, rfl⟩ | rfl | ⟨hp, pr, es', rfl⟩
    · simp [scanEntries]
    · simp [scanEntries]
    · simp only [scanEntries]
      split_ifs <;> simp_all
  rw [scanEntries_append sc ct maxD depth es1 (bad :: es2),
    show bad :: es2 = [bad] ++ es2 from rfl,
    scanEntries_append sc ct maxD depth [bad] es2, hz, List.nil_append]

/-- Witness for C9: a raising entry between two good file entries drops
out while both siblings are still reported. -/
theorem c9_witness :
    scanEntries defaultChecker 0 10 0
        [FsEntry.file junkOldAnalyze false, FsEntry.raising,
          FsEntry.file junkOldAnalyze false]
      = scanEntries defaultChecker 0 10 0 [FsEntry.file junkOldAnalyze false]
          ++ scanEntries defaultChecker 0 10 0 [FsEntry.file junkOldAnalyze false] :=
  c9_error_isolation defaultChecker 0 10 0 [FsEntry.file junkOldAnalyze false]
    [FsEntry.file junkOldAnalyze false] FsEntry.raising (Or.inr (Or.inl rfl))

end ClearUp
